import Mathlib

set_option maxRecDepth 8000

/-!
Shallow embedding of the interview-chat backend route
(`backend/src/routes/interview.ts`): the per-session conversation
registry, the `POST /interview/chat` handler, the `POST /interview/reset`
handler and the `generateLipSync` viseme generator, together with proofs
of the behavioural properties claimed for them.

Conventions of the embedding:
  * JavaScript strings are Lean `String`s; `undefined`-able values are
    `Option`s; the JS truthiness test on a string (`s ? _ : _`, `a || b`)
    is modelled by testing for `none` or the empty string (`orFalsy`,
    `falsyStr`), since those are exactly the falsy strings.
  * The `Map` of transcripts is an association list (`Registry`); the
    in-place `history.push` mutations of the stored array are modelled by
    re-inserting the grown list at each mutation point.
  * `Math.random()` is an oracle `rand : Nat -> Rat` giving the sequence
    of draws, each in `[0, 1)`; draws are consumed left to right.
  * The outcome of the external `fetch` to the provider, and of the
    `JSON.parse` of the provider content, are inputs (`ChatEffects`) to
    the handler, which is otherwise a pure state transformer.
-/

inductive Role where
  | system
  | user
  | assistant
  deriving DecidableEq, Repr

structure Turn where
  role : Role
  content : String
  deriving DecidableEq, Repr

/-- The registry `conversationHistory : Map<string, Array<Turn>>`,
as an association list from session id to transcript. -/
def Registry := List (String × List Turn)

/-- `Map.get` -/
def rlookup : Registry → String → Option (List Turn)
  | [], _ => none
  | (k, v) :: rest, s => if k = s then some v else rlookup rest s

/-- `Map.set` (replaces the binding when the key is present). -/
def rinsert : Registry → String → List Turn → Registry
  | [], s, v => [(s, v)]
  | (k, w) :: rest, s, v =>
      if k = s then (s, v) :: rest else (k, w) :: rinsert rest s v

/-- `Map.delete` -/
def rerase : Registry → String → Registry
  | [], _ => []
  | (k, w) :: rest, s =>
      if k = s then rerase rest s else (k, w) :: rerase rest s

/-- `const DEFAULT_MODEL = "llama-3.3-70b-versatile"` (line 29). -/
def DEFAULT_MODEL : String := "llama-3.3-70b-versatile"

/-- `INTERVIEWER_SYSTEM_PROMPT` (lines 34-52), transcribed verbatim
(braces and apostrophes written with character escapes). -/
def INTERVIEWER_SYSTEM_PROMPT : String :=
  "You are an expert technical interviewer named \"Optimus\" for a learning platform. Your role is to conduct mock interviews to help students practice.\n\nRULES:\n1. Be professional but friendly and encouraging\n2. Ask one question at a time\n3. After the student answers, provide brief constructive feedback then ask a follow-up or new question\n4. Cover topics relevant to software development: algorithms, system design, behavioral, coding concepts\n5. Adapt difficulty based on the student\x27s responses\n6. If the student says \"hello\" or greets you, introduce yourself and ask what type of interview they\x27d like (technical, behavioral, or general)\n7. Keep responses concise (2-3 sentences max for feedback, then the question)\n\nRESPONSE FORMAT:\nYou must respond with ONLY valid JSON in this exact format, no markdown, no code blocks:\n\x7b\"text\": \"your response text here\", \"facialExpression\": \"smile\", \"animation\": \"Talking_1\"\x7d\n\nAvailable facialExpressions: \"smile\", \"default\", \"funnyFace\", \"sad\"\nAvailable animations: \"Talking_0\", \"Talking_1\", \"Talking_2\", \"Idle\"\n\nUse \"smile\" for encouragement, \"default\" for questions, \"sad\" for when the student struggles."

/-- The seed turn `{ role: "system", content: INTERVIEWER_SYSTEM_PROMPT }`
(lines 119-121). -/
def systemTurn : Turn := ⟨Role.system, INTERVIEWER_SYSTEM_PROMPT⟩

/-- The canned greeting substituted for an empty or absent message
(lines 129-133). -/
def cannedGreeting : String := "Hi, I\x27d like to start a mock interview session."

/-! ## The viseme generator `generateLipSync` (lines 57-77) -/

structure MouthCue where
  start : ℚ
  end' : ℚ
  value : String
  deriving DecidableEq, Repr

structure LipSync where
  mouthCues : List MouthCue
  deriving DecidableEq, Repr

/-- `const visemes = ["A", ..., "X"]` (line 58). -/
def visemeAlphabet : List String := ["A", "B", "C", "D", "E", "F", "G", "H", "X"]

/-- `Math.round(q * 100) / 100` (lines 67-68); Lean's `round` is
`fun x => ⌊x + 1/2⌋`, exactly JS `Math.round`. -/
def round2 (q : ℚ) : ℚ := ((round (q * 100) : ℤ) : ℚ) / 100

/-- State threaded through the loops of `generateLipSync`: the cue
array, the running clock `currentTime`, and the index of the next
pseudo-random draw. -/
structure GenState where
  cues : List MouthCue
  currentTime : ℚ
  idx : ℕ

/-- Body of the inner loop (lines 64-72): one cue per character; the
first draw gives the duration, the second the viseme symbol (the list
index default is unreachable while draws stay below 1). -/
def emitChar (rand : ℕ → ℚ) (s : GenState) : GenState :=
  let duration : ℚ := 8 / 100 + rand s.idx * (4 / 100)
  let v := visemeAlphabet.getD (⌊rand (s.idx + 1) * 9⌋).toNat "A"
  { cues := s.cues ++
      [{ start := round2 s.currentTime,
         end' := round2 (s.currentTime + duration),
         value := v }],
    currentTime := s.currentTime + duration,
    idx := s.idx + 2 }

/-- Body of the outer loop (lines 63-74): the cue of each character of
the word, then the inter-word pause `currentTime += 0.1`. -/
def emitWord (rand : ℕ → ℚ) (s : GenState) (w : List Char) : GenState :=
  let s1 := w.foldl (fun st _ => emitChar rand st) s
  { s1 with currentTime := s1.currentTime + 1 / 10 }

/-- JS `text.split(" ")` on the character list: single-character
separator, adjacent separators give empty pieces, `""` gives `[[]]`. -/
def splitSpaces : List Char → List Char → List (List Char)
  | [], acc => [acc.reverse]
  | c :: cs, acc =>
      if c = ' ' then acc.reverse :: splitSpaces cs []
      else splitSpaces cs (c :: acc)

/-- `generateLipSync` (lines 57-77). -/
def generateLipSync (rand : ℕ → ℚ) (text : String) : LipSync :=
  { mouthCues :=
      ((splitSpaces text.data []).foldl (emitWord rand)
        { cues := [], currentTime := 0, idx := 0 }).cues }

/-! ## The chat handler `POST /interview/chat` (lines 92-237) -/

/-- The decoded request: JSON body fields `message`, `sessionId` and the
query parameter `model` (a failed body parse is all-`none`, line 111). -/
structure ChatRequest where
  message : Option String
  sessionId : Option String
  queryModel : Option String

/-- The parse of the provider content as
`{text, facialExpression, animation}`; absent fields are `""`
(both are falsy in JS, so downstream `||` treats them alike). -/
structure ParsedReply where
  text : String
  facialExpression : String
  animation : String

/-- The environment-supplied outcome of the external calls:
`providerOk` is `response.ok`, `status` its HTTP status, `choices` the
list of `choices[i].message.content` strings, `respModel` the provider's
reported `model`, and `parsed` the result of `JSON.parse` on the first
content (`none` when the parse throws). -/
structure ChatEffects where
  providerOk : Bool
  status : ℕ
  choices : List String
  respModel : String
  parsed : Option ParsedReply

structure OutMessage where
  text : String
  audio : String
  lipsync : LipSync
  facialExpression : String
  animation : String

structure ChatResponse where
  status : ℕ
  messages : List OutMessage
  model : Option String
  error : Option String

/-- One request body sent to the provider (line 150-156): the selected
model and the full transcript. -/
structure ProviderRequest where
  model : String
  messages : List Turn

structure ChatOutcome where
  response : ChatResponse
  registry : Registry
  providerCalls : List ProviderRequest

/-- JS truthiness test on a possibly-undefined string: `undefined` and
`""` are the falsy cases. -/
def falsyStr : Option String → Bool
  | none => true
  | some s => s = ""

/-- JS `a || b` for a possibly-undefined string `a`. -/
def orFalsy (a : Option String) (b : String) : String :=
  match a with
  | none => b
  | some s => if s = "" then b else s

/-- `body.sessionId || "default"` (lines 114-115). -/
def resolveSessionId (sid : Option String) : String := orFalsy sid "default"

/-- JS `String.prototype.trim`: strip leading and trailing whitespace. -/
def isSpaceChar (c : Char) : Bool := c = ' ' || c = '\t' || c = '\n' || c = '\r'

def jsTrim (s : String) : String :=
  ⟨((s.data.dropWhile isSpaceChar).reverse.dropWhile isSpaceChar).reverse⟩

/-- The content of the appended user turn (lines 126-134):
`userMessage && userMessage.trim() !== ""` keeps the message verbatim,
anything else gets the canned greeting. -/
def chooseUserContent : Option String → String
  | some m => if m ≠ "" ∧ jsTrim m ≠ "" then m else cannedGreeting
  | none => cannedGreeting

/-- `queryModel || c.env.INTERVIEW_MODEL || DEFAULT_MODEL`
(lines 137-139). -/
def selectModel (queryModel envModel : Option String) : String :=
  orFalsy queryModel (orFalsy envModel DEFAULT_MODEL)

/-- Lines 118-122: seed the session with the system turn when absent. -/
def ensureSession (reg : Registry) (sid : String) : Registry :=
  if (rlookup reg sid).isSome then reg
  else rinsert reg sid [systemTurn]

/-- Lines 196-202: when the transcript exceeds 21 turns, keep
`[history[0], ...history.slice(-20)]` (for `l.length ≤ 20`,
`l.drop (l.length - 20) = l`, matching `slice(-20)`). -/
def truncateIfNeeded (h : List Turn) : List Turn :=
  if h.length > 21 then h.headD ⟨Role.system, ""⟩ :: h.drop (h.length - 20)
  else h

/-- The mock response of the missing-credential branch (lines 95-108). -/
def noKeyResponse (rand : ℕ → ℚ) : ChatResponse :=
  { status := 200,
    messages :=
      [{ text := "AI interview is not configured. Please add GROQ_API_KEY to your environment variables.",
         audio := "",
         lipsync := generateLipSync rand "AI interview is not configured.",
         facialExpression := "sad",
         animation := "Idle" }],
    model := none,
    error := none }

/-- The catch branch (lines 219-236): status 500, apology text, and the
`String(error)` rendering of the thrown `Groq API error` (line 163). -/
def errorResponse (rand : ℕ → ℚ) (status : ℕ) : ChatResponse :=
  { status := 500,
    messages :=
      [{ text := "I\x27m having trouble connecting right now. Please try again in a moment.",
         audio := "",
         lipsync := generateLipSync rand "I\x27m having trouble connecting.",
         facialExpression := "sad",
         animation := "Idle" }],
    model := none,
    error := some ("Error: Groq API error: " ++ toString status) }

/-- The success response (lines 204-218); `parsed.facialExpression ||
"default"` and `parsed.animation || "Talking_1"` via the falsy test. -/
def okResponse (rand : ℕ → ℚ) (parsed : ParsedReply) (respModel : String) :
    ChatResponse :=
  { status := 200,
    messages :=
      [{ text := parsed.text,
         audio := "",
         lipsync := generateLipSync rand parsed.text,
         facialExpression :=
           if parsed.facialExpression = "" then "default"
           else parsed.facialExpression,
         animation :=
           if parsed.animation = "" then "Talking_1" else parsed.animation }],
    model := some respModel,
    error := none }

/-- The `POST /interview/chat` handler (lines 92-237) as a pure
transformer of the registry, parameterised by the random oracle, the
environment (`GROQ_API_KEY`, `INTERVIEW_MODEL`) and the external-call
outcome. -/
def chatHandler (rand : ℕ → ℚ) (apiKey envModel : Option String)
    (req : ChatRequest) (eff : ChatEffects) (reg : Registry) : ChatOutcome :=
  if falsyStr apiKey = true then
    { response := noKeyResponse rand, registry := reg, providerCalls := [] }
  else
    let sid := resolveSessionId req.sessionId
    let reg1 := ensureSession reg sid
    let history := (rlookup reg1 sid).getD []
    let history2 := history ++ [⟨Role.user, chooseUserContent req.message⟩]
    let reg2 := rinsert reg1 sid history2
    let model := selectModel req.queryModel envModel
    let call : ProviderRequest := ⟨model, history2⟩
    if eff.providerOk = false then
      { response := errorResponse rand eff.status,
        registry := reg2,
        providerCalls := [call] }
    else
      let aiContent := eff.choices.headD ""
      let parsed :=
        match eff.parsed with
        | some p => p
        | none =>
            { text := aiContent, facialExpression := "default",
              animation := "Talking_1" }
      let history3 := history2 ++ [⟨Role.assistant, aiContent⟩]
      let reg3 := rinsert reg2 sid (truncateIfNeeded history3)
      { response := okResponse rand parsed eff.respModel,
        registry := reg3,
        providerCalls := [call] }

/-- The `POST /interview/reset` handler's registry effect
(lines 284-292). -/
def resetHandler (sid : Option String) (reg : Registry) : Registry :=
  rerase reg (resolveSessionId sid)

/-- One externally observable event against the route. -/
inductive Event where
  | chat (req : ChatRequest) (eff : ChatEffects)
  | reset (sessionId : Option String)

/-- Run a sequence of requests against the route, threading the
registry. -/
def runEvents (rand : ℕ → ℚ) (apiKey envModel : Option String) :
    List Event → Registry → Registry
  | [], reg => reg
  | Event.chat req eff :: rest, reg =>
      runEvents rand apiKey envModel rest
        (chatHandler rand apiKey envModel req eff reg).registry
  | Event.reset sid :: rest, reg =>
      runEvents rand apiKey envModel rest (resetHandler sid reg)

/-- A sequence of chat requests, as events. -/
def chatEvents (steps : List (ChatRequest × ChatEffects)) : List Event :=
  steps.map fun p => Event.chat p.1 p.2

/-! ## Predicates and sample runs used by the verification -/

/-- The other side of a user/assistant exchange. -/
def otherRole : Role → Role
  | Role.user => Role.assistant
  | Role.assistant => Role.user
  | Role.system => Role.system

/-- Strict alternation starting with `r`. -/
def alternatingFrom : Role → List Role → Bool
  | _, [] => true
  | r, x :: xs => decide (x = r) && alternatingFrom (otherRole r) xs

/-- A complete sequence of user/assistant exchanges: `(user assistant)*`. -/
def isUA : List Role → Bool
  | [] => true
  | Role.user :: Role.assistant :: xs => isUA xs
  | _ => false

/-- Every stored transcript starts with the fixed system turn. -/
def FirstIsSystem (reg : Registry) : Prop :=
  ∀ sid h, rlookup reg sid = some h → h.head? = some systemTurn

/-- Every stored transcript is the system turn followed by complete
user/assistant exchanges, and is at most 21 turns long. -/
def ChatInv (reg : Registry) : Prop :=
  ∀ sid h, rlookup reg sid = some h →
    ∃ rest, h = systemTurn :: rest ∧ isUA (rest.map Turn.role) = true ∧
      h.length ≤ 21

/-- Invariant of the `generateLipSync` loops: every emitted cue has
`start < end`, starts are non-decreasing, and all starts are below the
rounded running clock. -/
def GenInv (s : GenState) : Prop :=
  (∀ c ∈ s.cues, c.start < c.end') ∧
  (s.cues.map MouthCue.start).Pairwise (· ≤ ·) ∧
  (∀ c ∈ s.cues, c.start ≤ round2 s.currentTime)

/-- A chat request with empty body on which the provider succeeds with
content `"ok"`. -/
def okChatStep : Event :=
  Event.chat ⟨none, none, none⟩ ⟨true, 200, ["ok"], "m", none⟩

/-- A chat request with empty body on which the provider answers HTTP
503. -/
def failChatStep : Event :=
  Event.chat ⟨none, none, none⟩ ⟨false, 503, [], "m", none⟩

/-- A constant random oracle (all draws zero), used for concrete runs. -/
def zeroRand : ℕ → ℚ := fun _ => 0

/-! ## Registry lemmas -/

theorem rlookup_rinsert_self (s : String) (v : List Turn) :
    ∀ r : Registry, rlookup (rinsert r s v) s = some v := by
  intro r
  induction r with
  | nil => simp [rinsert, rlookup]
  | cons kv rest ih =>
      obtain ⟨k, w⟩ := kv
      by_cases hk : k = s
      · simp [rinsert, hk, rlookup]
      · simp [rinsert, hk, rlookup, ih]

theorem rlookup_rinsert_ne (s t : String) (v : List Turn) (hts : t ≠ s) :
    ∀ r : Registry, rlookup (rinsert r s v) t = rlookup r t := by
  intro r
  induction r with
  | nil => simp [rinsert, rlookup, Ne.symm hts]
  | cons kv rest ih =>
      obtain ⟨k, w⟩ := kv
      by_cases hk : k = s
      · subst hk
        simp [rinsert, rlookup, Ne.symm hts]
      · simp [rinsert, hk, rlookup, ih]

theorem rinsert_rinsert (s : String) (v w : List Turn) :
    ∀ r : Registry, rinsert (rinsert r s v) s w = rinsert r s w := by
  intro r
  induction r with
  | nil => simp [rinsert]
  | cons kv rest ih =>
      obtain ⟨k, x⟩ := kv
      by_cases hk : k = s
      · simp [rinsert, hk]
      · simp [rinsert, hk, ih]

theorem rlookup_rerase (s t : String) :
    ∀ r : Registry, rlookup (rerase r s) t = if t = s then none else rlookup r t := by
  intro r
  induction r with
  | nil => simp [rerase, rlookup, ite_self]
  | cons kv rest ih =>
      obtain ⟨k, w⟩ := kv
      simp only [rerase, rlookup]
      by_cases hk : k = s
      · subst hk
        rw [if_pos rfl, ih]
        by_cases ht : t = k
        · simp [ht]
        · simp [ht, Ne.symm ht]
      · rw [if_neg hk]
        simp only [rlookup]
        by_cases ht : k = t
        · subst ht
          simp [hk]
        · simp [ht, ih]

theorem rlookup_ensureSession_self (reg : Registry) (sid : String) :
    rlookup (ensureSession reg sid) sid =
      some ((rlookup reg sid).getD [systemTurn]) := by
  unfold ensureSession
  cases h : rlookup reg sid with
  | none => simp [h, rlookup_rinsert_self]
  | some v => simp [h]

theorem rlookup_ensureSession_ne (reg : Registry) (sid t : String)
    (h : t ≠ sid) :
    rlookup (ensureSession reg sid) t = rlookup reg t := by
  unfold ensureSession
  split
  · rfl
  · exact rlookup_rinsert_ne sid t [systemTurn] h reg

/-! ## Truncation and list head lemmas -/

theorem truncateIfNeeded_length_le (h : List Turn) :
    (truncateIfNeeded h).length ≤ 21 := by
  unfold truncateIfNeeded
  split
  · next hgt => simp only [List.length_cons, List.length_drop]; omega
  · next hle => omega

theorem head_append_left {α : Type} (l l' : List α) (a : α)
    (h : l.head? = some a) : (l ++ l').head? = some a := by
  cases l with
  | nil => simp at h
  | cons x xs => simpa using h

theorem truncateIfNeeded_head (h : List Turn) (a : Turn)
    (hh : h.head? = some a) : (truncateIfNeeded h).head? = some a := by
  unfold truncateIfNeeded
  split
  · cases h with
    | nil => simp at hh
    | cons x xs => simpa using hh
  · exact hh

/-! ## Shape of the handler's registry and provider calls -/

theorem chatHandler_registry_char (rand : ℕ → ℚ) (apiKey envModel : Option String)
    (req : ChatRequest) (eff : ChatEffects) (reg : Registry) :
    (chatHandler rand apiKey envModel req eff reg).registry =
      if falsyStr apiKey = true then reg
      else if eff.providerOk = false then
        rinsert (ensureSession reg (resolveSessionId req.sessionId))
          (resolveSessionId req.sessionId)
          (((rlookup (ensureSession reg (resolveSessionId req.sessionId))
              (resolveSessionId req.sessionId)).getD []) ++
            [⟨Role.user, chooseUserContent req.message⟩])
      else
        rinsert (ensureSession reg (resolveSessionId req.sessionId))
          (resolveSessionId req.sessionId)
          (truncateIfNeeded
            (((rlookup (ensureSession reg (resolveSessionId req.sessionId))
                (resolveSessionId req.sessionId)).getD []) ++
              [⟨Role.user, chooseUserContent req.message⟩] ++
              [⟨Role.assistant, eff.choices.headD ""⟩])) := by
  unfold chatHandler
  by_cases h1 : falsyStr apiKey = true
  · simp [h1]
  · by_cases h2 : eff.providerOk = false
    · simp [h1, h2]
    · simp [h1, h2, rinsert_rinsert]

theorem chatHandler_calls_char (rand : ℕ → ℚ) (apiKey envModel : Option String)
    (req : ChatRequest) (eff : ChatEffects) (reg : Registry) :
    (chatHandler rand apiKey envModel req eff reg).providerCalls =
      if falsyStr apiKey = true then []
      else
        [⟨selectModel req.queryModel envModel,
          ((rlookup (ensureSession reg (resolveSessionId req.sessionId))
              (resolveSessionId req.sessionId)).getD []) ++
            [⟨Role.user, chooseUserContent req.message⟩]⟩] := by
  unfold chatHandler
  by_cases h1 : falsyStr apiKey = true
  · simp [h1]
  · by_cases h2 : eff.providerOk = false
    · simp [h1, h2]
    · simp [h1, h2]

/-! ## Alternation lemmas -/

theorem isUA_cons (x y : Role) (xs : List Role)
    (h : isUA (x :: y :: xs) = true) :
    x = Role.user ∧ y = Role.assistant ∧ isUA xs = true := by
  cases x <;> cases y <;> simp_all [isUA]

theorem isUA_single (x : Role) : isUA [x] = false := by
  cases x <;> rfl

theorem isUA_append_pair :
    ∀ l, isUA l = true → isUA (l ++ [Role.user, Role.assistant]) = true
  | [], _ => rfl
  | [x], h => absurd h (by simp [isUA_single])
  | x :: y :: xs, h => by
      obtain ⟨hx, hy, hxs⟩ := isUA_cons x y xs h
      subst hx; subst hy
      simpa [isUA] using isUA_append_pair xs hxs

theorem isUA_alternating :
    ∀ l, isUA l = true → alternatingFrom Role.user l = true
  | [], _ => rfl
  | [x], h => absurd h (by simp [isUA_single])
  | x :: y :: xs, h => by
      obtain ⟨hx, hy, hxs⟩ := isUA_cons x y xs h
      subst hx; subst hy
      simpa [alternatingFrom, otherRole] using isUA_alternating xs hxs

theorem isUA_length_even :
    ∀ l, isUA l = true → l.length % 2 = 0
  | [], _ => rfl
  | [x], h => absurd h (by simp [isUA_single])
  | x :: y :: xs, h => by
      obtain ⟨-, -, hxs⟩ := isUA_cons x y xs h
      have := isUA_length_even xs hxs
      simp only [List.length_cons]
      omega

/-! ## Preservation of the system-turn head -/

theorem firstIsSystem_rinsert (reg1 : Registry) (sid : String) (v : List Turn)
    (hother : ∀ t h, t ≠ sid → rlookup reg1 t = some h → h.head? = some systemTurn)
    (hv : v.head? = some systemTurn) :
    FirstIsSystem (rinsert reg1 sid v) := by
  intro t h hl
  by_cases ht : t = sid
  · subst ht
    rw [rlookup_rinsert_self] at hl
    exact Option.some_inj.mp hl ▸ hv
  · rw [rlookup_rinsert_ne sid t v ht] at hl
    exact hother t h ht hl

theorem chatHandler_preserves_first (rand : ℕ → ℚ)
    (apiKey envModel : Option String) (req : ChatRequest) (eff : ChatEffects)
    (reg : Registry) (hreg : FirstIsSystem reg) :
    FirstIsSystem (chatHandler rand apiKey envModel req eff reg).registry := by
  rw [chatHandler_registry_char]
  by_cases h1 : falsyStr apiKey = true
  · simpa [h1] using hreg
  · rw [if_neg h1]
    set sid := resolveSessionId req.sessionId with hsid
    have hhist : ((rlookup (ensureSession reg sid) sid).getD []).head? =
        some systemTurn := by
      rw [rlookup_ensureSession_self]
      cases hc : rlookup reg sid with
      | none => simp
      | some h0 => simpa using hreg sid h0 hc
    have hother : ∀ t h, t ≠ sid →
        rlookup (ensureSession reg sid) t = some h →
        h.head? = some systemTurn := by
      intro t h ht hl
      rw [rlookup_ensureSession_ne reg sid t ht] at hl
      exact hreg t h hl
    have huser : (((rlookup (ensureSession reg sid) sid).getD []) ++
        [Turn.mk Role.user (chooseUserContent req.message)]).head? = some systemTurn :=
      head_append_left _ _ _ hhist
    by_cases h2 : eff.providerOk = false
    · rw [if_pos h2]
      exact firstIsSystem_rinsert _ _ _ hother huser
    · rw [if_neg h2]
      refine firstIsSystem_rinsert _ _ _ hother ?_
      exact truncateIfNeeded_head _ _ (head_append_left _ _ _ huser)

theorem resetHandler_preserves_first (sid : Option String) (reg : Registry)
    (hreg : FirstIsSystem reg) : FirstIsSystem (resetHandler sid reg) := by
  intro t h hl
  unfold resetHandler at hl
  rw [rlookup_rerase] at hl
  by_cases ht : t = resolveSessionId sid
  · simp [ht] at hl
  · rw [if_neg ht] at hl
    exact hreg t h hl

theorem runEvents_preserves_first (rand : ℕ → ℚ)
    (apiKey envModel : Option String) :
    ∀ (events : List Event) (reg : Registry), FirstIsSystem reg →
      FirstIsSystem (runEvents rand apiKey envModel events reg)
  | [], _, h => h
  | Event.chat req eff :: rest, reg, h =>
      runEvents_preserves_first rand apiKey envModel rest _
        (chatHandler_preserves_first rand apiKey envModel req eff reg h)
  | Event.reset sid :: rest, reg, h =>
      runEvents_preserves_first rand apiKey envModel rest _
        (resetHandler_preserves_first sid reg h)

/-! ## Preservation of the alternation/length invariant -/

theorem chatHandler_preserves_inv (rand : ℕ → ℚ)
    (apiKey envModel : Option String) (req : ChatRequest) (eff : ChatEffects)
    (reg : Registry) (hok : eff.providerOk = true) (hreg : ChatInv reg) :
    ChatInv (chatHandler rand apiKey envModel req eff reg).registry := by
  rw [chatHandler_registry_char]
  by_cases h1 : falsyStr apiKey = true
  · simpa [h1] using hreg
  · rw [if_neg h1, if_neg (by simp [hok])]
    set sid := resolveSessionId req.sessionId with hsid
    set uT : Turn := Turn.mk Role.user (chooseUserContent req.message) with huT
    set aT : Turn := Turn.mk Role.assistant (eff.choices.headD "") with haT
    intro t h hl
    by_cases ht : t = sid
    swap
    · rw [rlookup_rinsert_ne _ _ _ ht, rlookup_ensureSession_ne reg sid t ht] at hl
      exact hreg t h hl
    subst ht
    rw [rlookup_rinsert_self] at hl
    have hh : h = truncateIfNeeded
        (((rlookup (ensureSession reg sid) sid).getD []) ++ [uT] ++ [aT]) :=
      (Option.some_inj.mp hl).symm
    rw [rlookup_ensureSession_self] at hh
    simp only [Option.getD_some] at hh
    cases hc : rlookup reg sid with
    | none =>
        rw [hc] at hh
        simp only [Option.getD_none] at hh
        have htr : truncateIfNeeded ([systemTurn] ++ [uT] ++ [aT]) =
            systemTurn :: [uT, aT] := by
          simp [truncateIfNeeded]
        refine ⟨[uT, aT], hh.trans htr, ?_, ?_⟩
        · rfl
        · rw [hh, htr]; simp
    | some h0 =>
        rw [hc] at hh
        simp only [Option.getD_some] at hh
        obtain ⟨rest0, hrest0, hUA0, hlen0⟩ := hreg sid h0 hc
        have hlen3 : (h0 ++ [uT] ++ [aT]).length = rest0.length + 3 := by
          subst hrest0; simp
        by_cases hbig : (h0 ++ [uT] ++ [aT]).length > 21
        · -- the transcript is truncated down to 21 turns
          have hle20 : rest0.length ≤ 20 := by
            subst hrest0; simp at hlen0; omega
          have heven : rest0.length % 2 = 0 := by
            have := isUA_length_even (rest0.map Turn.role) hUA0
            simpa using this
          have hr20 : rest0.length = 20 := by omega
          cases rest0 with
          | nil => simp at hr20
          | cons x r' =>
            cases r' with
            | nil => simp at hr20
            | cons y rest2 =>
              simp only [List.map] at hUA0
              obtain ⟨hx, hy, hUA2⟩ := isUA_cons _ _ _ hUA0
              have hlen2 : rest2.length = 18 := by
                simp only [List.length_cons] at hr20; omega
              have h3eq : h0 ++ [uT] ++ [aT] =
                  systemTurn :: x :: y :: (rest2 ++ [uT, aT]) := by
                subst hrest0; simp
              have hlen32 : (h0 ++ [uT] ++ [aT]).length = 23 := by
                rw [hlen3]; simp only [List.length_cons]; omega
              have htr : truncateIfNeeded (h0 ++ [uT] ++ [aT]) =
                  systemTurn :: (rest2 ++ [uT, aT]) := by
                unfold truncateIfNeeded
                rw [hlen32, if_pos (by norm_num), h3eq]
                norm_num [List.drop]
              refine ⟨rest2 ++ [uT, aT], hh.trans htr, ?_, ?_⟩
              · rw [List.map_append]
                exact isUA_append_pair _ hUA2
              · rw [hh, htr]
                simp only [List.length_cons, List.length_append, List.length_nil]
                omega
        · -- no truncation needed
          have htr : truncateIfNeeded (h0 ++ [uT] ++ [aT]) = h0 ++ [uT] ++ [aT] := by
            unfold truncateIfNeeded
            rw [if_neg hbig]
          have h3eq : h0 ++ [uT] ++ [aT] = systemTurn :: (rest0 ++ [uT, aT]) := by
            subst hrest0; simp
          refine ⟨rest0 ++ [uT, aT], by rw [hh, htr, h3eq], ?_, ?_⟩
          · rw [List.map_append]
            exact isUA_append_pair _ hUA0
          · rw [hh, htr]
            exact Nat.not_lt.mp hbig

theorem runChats_preserves_inv (rand : ℕ → ℚ) (apiKey envModel : Option String) :
    ∀ (steps : List (ChatRequest × ChatEffects)) (reg : Registry),
      (∀ p ∈ steps, (p.2 : ChatEffects).providerOk = true) → ChatInv reg →
      ChatInv (runEvents rand apiKey envModel (chatEvents steps) reg)
  | [], _, _, h => h
  | (req, eff) :: rest, reg, hall, h =>
      runChats_preserves_inv rand apiKey envModel rest _
        (fun p hp => hall p (List.mem_cons_of_mem _ hp))
        (chatHandler_preserves_inv rand apiKey envModel req eff reg
          (hall (req, eff) (List.mem_cons_self _ _)) h)

/-! ## Rounding lemmas for the viseme clock -/

theorem round_rat_mono {a b : ℚ} (h : a ≤ b) : round a ≤ round b := by
  rw [round_eq, round_eq]
  exact Int.floor_le_floor (by linarith)

theorem round2_mono {a b : ℚ} (h : a ≤ b) : round2 a ≤ round2 b := by
  unfold round2
  have h1 : round (a * 100) ≤ round (b * 100) := round_rat_mono (by linarith)
  have h2 : ((round (a * 100) : ℤ) : ℚ) ≤ ((round (b * 100) : ℤ) : ℚ) := by
    exact_mod_cast h1
  linarith

theorem round2_lt {a d : ℚ} (hd : 8 / 100 ≤ d) : round2 a < round2 (a + d) := by
  unfold round2
  have h8 : round (a * 100) + 8 ≤ round ((a + d) * 100) := by
    have hstep : round (a * 100 + ((8 : ℤ) : ℚ)) = round (a * 100) + 8 :=
      round_add_int _ _
    calc round (a * 100) + 8 = round (a * 100 + ((8 : ℤ) : ℚ)) := hstep.symm
      _ ≤ round ((a + d) * 100) := round_rat_mono (by push_cast; nlinarith)
  have h8' : ((round (a * 100) : ℤ) : ℚ) + 8 ≤ ((round ((a + d) * 100) : ℤ) : ℚ) := by
    exact_mod_cast h8
  linarith

/-! ## The loop invariant of `generateLipSync` -/

theorem emitChar_inv (rand : ℕ → ℚ) (hr : ∀ n, 0 ≤ rand n) (s : GenState)
    (hs : GenInv s) : GenInv (emitChar rand s) := by
  obtain ⟨h1, h2, h3⟩ := hs
  unfold GenInv emitChar
  dsimp only
  set d : ℚ := 8 / 100 + rand s.idx * (4 / 100) with hd
  clear_value d
  have hd8 : 8 / 100 ≤ d := by
    rw [hd]
    nlinarith [hr s.idx]
  have hd0 : (0 : ℚ) ≤ d := by linarith
  have hmono : round2 s.currentTime ≤ round2 (s.currentTime + d) :=
    round2_mono (by linarith)
  refine ⟨?_, ?_, ?_⟩
  · intro c hc
    rcases List.mem_append.mp hc with hmem | hmem
    · exact h1 c hmem
    · rw [List.mem_singleton.mp hmem]
      exact round2_lt hd8
  · rw [List.map_append]
    refine List.pairwise_append.mpr ⟨h2, by simp, ?_⟩
    intro x hx y hy
    simp only [List.map_cons, List.map_nil, List.mem_singleton] at hy
    subst hy
    obtain ⟨c, hc, hcx⟩ := List.mem_map.mp hx
    exact hcx ▸ h3 c hc
  · intro c hc
    rcases List.mem_append.mp hc with hmem | hmem
    · exact le_trans (h3 c hmem) hmono
    · rw [List.mem_singleton.mp hmem]
      exact hmono

theorem foldChars_inv (rand : ℕ → ℚ) (hr : ∀ n, 0 ≤ rand n) :
    ∀ (w : List Char) (s : GenState), GenInv s →
      GenInv (w.foldl (fun st _ => emitChar rand st) s)
  | [], _, hs => hs
  | _ :: cs, s, hs => foldChars_inv rand hr cs _ (emitChar_inv rand hr s hs)

theorem emitWord_inv (rand : ℕ → ℚ) (hr : ∀ n, 0 ≤ rand n) (s : GenState)
    (w : List Char) (hs : GenInv s) : GenInv (emitWord rand s w) := by
  unfold emitWord
  obtain ⟨h1, h2, h3⟩ := foldChars_inv rand hr w s hs
  exact ⟨h1, h2, fun c hc => le_trans (h3 c hc) (round2_mono (by linarith))⟩

theorem foldWords_inv (rand : ℕ → ℚ) (hr : ∀ n, 0 ≤ rand n) :
    ∀ (ws : List (List Char)) (s : GenState), GenInv s →
      GenInv (ws.foldl (emitWord rand) s)
  | [], _, hs => hs
  | w :: rest, s, hs => foldWords_inv rand hr rest _ (emitWord_inv rand hr s w hs)

theorem generateLipSync_inv (rand : ℕ → ℚ) (hr : ∀ n, 0 ≤ rand n)
    (text : String) :
    (∀ c ∈ (generateLipSync rand text).mouthCues, c.start < c.end') ∧
    ((generateLipSync rand text).mouthCues.map MouthCue.start).Pairwise (· ≤ ·) := by
  unfold generateLipSync
  have hinit : GenInv { cues := [], currentTime := 0, idx := 0 } := by
    refine ⟨?_, ?_, ?_⟩ <;> simp
  obtain ⟨h1, h2, -⟩ := foldWords_inv rand hr (splitSpaces text.data []) _ hinit
  exact ⟨h1, h2⟩

/-! ## Claims -/

/-- Claim C1 (amended): after any chat request on which the provider call
succeeds, the transcript stored for the request's session has length at
most 21, whatever its previous length; and 25 sequential successful chat
calls on one session id leave a transcript of length exactly 21. (As
literally stated the claim is false: a request on which the provider
fails appends the user turn but never truncates, see the
counterexample.) -/
theorem C1_transcript_bound :
    (∀ (rand : ℕ → ℚ) (apiKey envModel : Option String) (req : ChatRequest)
        (eff : ChatEffects) (reg : Registry),
        falsyStr apiKey = false → eff.providerOk = true →
        ((rlookup (chatHandler rand apiKey envModel req eff reg).registry
            (resolveSessionId req.sessionId)).getD []).length ≤ 21) ∧
    ((rlookup (runEvents zeroRand (some "k") none
        (List.replicate 25 okChatStep) []) "default").getD []).length = 21 := by
  constructor
  · intro rand apiKey envModel req eff reg hk hok
    rw [chatHandler_registry_char, if_neg (by simp [hk]),
      if_neg (by simp [hok]), rlookup_rinsert_self]
    simpa using truncateIfNeeded_length_le _
  · decide

/-- Claim C1 witness: a successful request on a fresh session leaves a
transcript of at most 21 turns. -/
theorem C1_witness :
    ((rlookup (chatHandler zeroRand (some "k") none ⟨none, none, none⟩
        ⟨true, 200, ["ok"], "m", none⟩ []).registry
      (resolveSessionId none)).getD []).length ≤ 21 :=
  C1_transcript_bound.1 zeroRand (some "k") none ⟨none, none, none⟩
    ⟨true, 200, ["ok"], "m", none⟩ [] (by decide) rfl

/-- Claim C1 counterexample: 10 successful calls fill the transcript to
21 turns; an 11th call on which the provider fails pushes the user turn
and throws before truncation, leaving 22 turns after the request
completes — the claimed bound does not hold for every completed
request. -/
theorem C1_counterexample :
    ¬ ((rlookup (runEvents zeroRand (some "k") none
        (List.replicate 10 okChatStep ++ [failChatStep]) [])
      "default").getD []).length ≤ 21 := by
  decide

/-- Claim C2: over any sequence of chat and reset requests starting from
an empty registry, every stored transcript has the fixed system
instruction as its first turn; creation seeds it, appends extend only
the tail, and truncation re-attaches `history[0]`. -/
theorem C2_first_turn_system (events : List Event) (rand : ℕ → ℚ)
    (apiKey envModel : Option String) (sid : String) (h : List Turn)
    (hl : rlookup (runEvents rand apiKey envModel events []) sid = some h) :
    h.head? = some systemTurn :=
  runEvents_preserves_first rand apiKey envModel events []
    (fun _ _ hx => by simp [rlookup] at hx) sid h hl

/-- Claim C2 witness: the transcript left by one successful chat call on
a fresh registry starts with the system turn. -/
theorem C2_witness :
    ([systemTurn, Turn.mk Role.user cannedGreeting,
      Turn.mk Role.assistant "ok"] : List Turn).head? = some systemTurn :=
  C2_first_turn_system [okChatStep] zeroRand (some "k") none "default" _ rfl

/-- Claim C3 (amended): over any sequence of chat requests on which every
provider call succeeds, the turns after the initial system turn strictly
alternate user/assistant starting with user. (As literally stated — for
sequences including failed provider calls — the claim is false, see the
counterexample.) -/
theorem C3_alternation (steps : List (ChatRequest × ChatEffects))
    (rand : ℕ → ℚ) (apiKey envModel : Option String)
    (hall : ∀ p ∈ steps, (p.2 : ChatEffects).providerOk = true)
    (sid : String) (h : List Turn)
    (hl : rlookup (runEvents rand apiKey envModel (chatEvents steps) [])
      sid = some h) :
    alternatingFrom Role.user ((h.drop 1).map Turn.role) = true := by
  obtain ⟨rest, hrest, hUA, -⟩ :=
    runChats_preserves_inv rand apiKey envModel steps []
      hall (fun _ _ hx => by simp [rlookup] at hx) sid h hl
  subst hrest
  simpa using isUA_alternating _ hUA

/-- Claim C3 witness: after one successful chat call the turns after the
system turn are user then assistant. -/
theorem C3_witness :
    alternatingFrom Role.user
      ((([systemTurn, Turn.mk Role.user cannedGreeting,
          Turn.mk Role.assistant "ok"] : List Turn).drop 1).map Turn.role) = true :=
  C3_alternation [(⟨none, none, none⟩, ⟨true, 200, ["ok"], "m", none⟩)]
    zeroRand (some "k") none
    (by intro p hp; simp only [List.mem_singleton] at hp; subst hp; rfl)
    "default" _ rfl

/-- Claim C3 counterexample: two requests on which the provider fails
each append a user turn and never an assistant turn, so the transcript
reads system, user, user — the alternation claimed for sequences that
include failed provider calls does not hold. -/
theorem C3_counterexample :
    ¬ alternatingFrom Role.user
        ((((rlookup (runEvents zeroRand (some "k") none
            [failChatStep, failChatStep] []) "default").getD []).drop 1).map
          Turn.role) = true := by
  decide

/-- Claim C4 (amended): the user turn appended to the transcript equals
the request's message verbatim when the message is supplied and
non-blank (its whitespace-trim is non-empty), and equals the canned
greeting — never an empty string — when the message is absent, empty, or
consists only of whitespace. (As literally stated the claim is false: a
whitespace-only message is non-empty yet is replaced by the greeting,
see the counterexample.) -/
theorem C4_user_turn_content :
    (∀ m : String, jsTrim m ≠ "" → chooseUserContent (some m) = m) ∧
    (∀ m : String, jsTrim m = "" → chooseUserContent (some m) = cannedGreeting) ∧
    chooseUserContent none = cannedGreeting ∧
    cannedGreeting ≠ "" ∧
    (∀ (rand : ℕ → ℚ) (apiKey envModel : Option String) (req : ChatRequest)
        (eff : ChatEffects) (reg : Registry), falsyStr apiKey = false →
        (chatHandler rand apiKey envModel req eff reg).providerCalls.map
            ProviderRequest.messages =
          [((rlookup (ensureSession reg (resolveSessionId req.sessionId))
              (resolveSessionId req.sessionId)).getD []) ++
            [Turn.mk Role.user (chooseUserContent req.message)]]) := by
  refine ⟨?_, ?_, rfl, by decide, ?_⟩
  · intro m hm
    have hm' : m ≠ "" := by
      intro he
      subst he
      exact hm rfl
    simp [chooseUserContent, hm, hm']
  · intro m hm
    by_cases he : m = ""
    · subst he
      simp [chooseUserContent]
    · simp [chooseUserContent, hm]
  · intro rand apiKey envModel req eff reg hk
    rw [chatHandler_calls_char, if_neg (by simp [hk])]
    rfl

/-- Claim C4 witness: a non-blank message is appended verbatim. -/
theorem C4_witness : chooseUserContent (some "hello") = "hello" :=
  C4_user_turn_content.1 "hello" (by decide)

/-- Claim C4 counterexample: the message `" "` is supplied and non-empty,
yet the appended user turn is the canned greeting, not the message
verbatim. -/
theorem C4_counterexample :
    ((rlookup (runEvents zeroRand (some "k") none
        [Event.chat ⟨some " ", none, none⟩ ⟨false, 503, [], "m", none⟩] [])
      "default").getD []).map Turn.content =
      [INTERVIEWER_SYSTEM_PROMPT, cannedGreeting] ∧
    cannedGreeting ≠ " " := by
  exact ⟨rfl, by decide⟩

/-- Claim C5: for any draw sequence in `[0, 1)` and any text, every cue
of the viseme track satisfies `start < end`, the cue start times are
non-decreasing in emission order, and the empty text yields the empty
track. -/
theorem C5_lipsync_track (rand : ℕ → ℚ) (hr : ∀ n, 0 ≤ rand n ∧ rand n < 1) :
    (∀ text : String,
      (∀ c ∈ (generateLipSync rand text).mouthCues, c.start < c.end') ∧
      ((generateLipSync rand text).mouthCues.map MouthCue.start).Pairwise
        (· ≤ ·)) ∧
    (generateLipSync rand "").mouthCues = [] :=
  ⟨fun text => generateLipSync_inv rand (fun n => (hr n).1) text, rfl⟩

/-- Claim C5 witness: with the all-zero draw sequence, the track of
`"hi"` has non-decreasing starts and the empty text yields no cues. -/
theorem C5_witness :
    ((generateLipSync zeroRand "hi").mouthCues.map MouthCue.start).Pairwise
      (· ≤ ·) ∧
    (generateLipSync zeroRand "").mouthCues = [] :=
  ⟨((C5_lipsync_track zeroRand
      (fun _ => ⟨le_refl 0, by norm_num [zeroRand]⟩)).1 "hi").2,
    (C5_lipsync_track zeroRand
      (fun _ => ⟨le_refl 0, by norm_num [zeroRand]⟩)).2⟩

/-- Claim C6 (amended): the model identifier sent to the provider is the
request's query parameter when that is present and non-empty; otherwise
the configured `INTERVIEW_MODEL` when present and non-empty; otherwise
the hardcoded `DEFAULT_MODEL` — the empty string is treated as absent at
both tiers. (As literally stated the claim is false: a present but empty
query parameter is skipped in favour of the configured value, see the
counterexample.) -/
theorem C6_model_precedence :
    (∀ (m : String) (envModel : Option String), m ≠ "" →
      selectModel (some m) envModel = m) ∧
    (∀ me : String, me ≠ "" →
      selectModel none (some me) = me ∧ selectModel (some "") (some me) = me) ∧
    (selectModel none none = DEFAULT_MODEL ∧
      selectModel (some "") none = DEFAULT_MODEL ∧
      selectModel none (some "") = DEFAULT_MODEL ∧
      selectModel (some "") (some "") = DEFAULT_MODEL) ∧
    (∀ (rand : ℕ → ℚ) (apiKey envModel : Option String) (req : ChatRequest)
        (eff : ChatEffects) (reg : Registry), falsyStr apiKey = false →
        (chatHandler rand apiKey envModel req eff reg).providerCalls.map
            ProviderRequest.model = [selectModel req.queryModel envModel]) := by
  refine ⟨?_, ?_, ⟨rfl, rfl, rfl, rfl⟩, ?_⟩
  · intro m env hm
    simp [selectModel, orFalsy, hm]
  · intro me hme
    constructor <;> simp [selectModel, orFalsy, hme]
  · intro rand apiKey envModel req eff reg hk
    rw [chatHandler_calls_char, if_neg (by simp [hk])]
    rfl

/-- Claim C6 witness: a non-empty query parameter beats a configured
default. -/
theorem C6_witness :
    selectModel (some "llama-3.1-8b-instant") (some "gemma2-9b-it") =
      "llama-3.1-8b-instant" :=
  C6_model_precedence.1 "llama-3.1-8b-instant" (some "gemma2-9b-it") (by decide)

/-- Claim C6 counterexample: with the query parameter present but empty
and `INTERVIEW_MODEL` configured, the model sent to the provider is the
configured value, not the query parameter's value. -/
theorem C6_counterexample :
    (chatHandler zeroRand (some "k") (some "llama-3.1-8b-instant")
        ⟨some "hi", none, some ""⟩ ⟨true, 200, ["ok"], "m", none⟩
        []).providerCalls.map ProviderRequest.model =
      ["llama-3.1-8b-instant"] ∧
    "llama-3.1-8b-instant" ≠ "" := by
  exact ⟨rfl, by decide⟩

/-- Claim C7: with the provider credential absent the handler answers
with success status 200 and a single explanatory message whose facial
expression is sad and whose animation is Idle, with no error field. -/
theorem C7_no_credential_response (rand : ℕ → ℚ) (envModel : Option String)
    (req : ChatRequest) (eff : ChatEffects) (reg : Registry) :
    (chatHandler rand none envModel req eff reg).response.status = 200 ∧
    (chatHandler rand none envModel req eff reg).response.messages.map
        (fun m => (m.facialExpression, m.animation)) = [("sad", "Idle")] ∧
    (chatHandler rand none envModel req eff reg).response.messages.map
        OutMessage.text =
      ["AI interview is not configured. Please add GROQ_API_KEY to your environment variables."] ∧
    (chatHandler rand none envModel req eff reg).response.error = none :=
  ⟨rfl, rfl, rfl, rfl⟩

/-- Claim C8: when the provider answers a non-success HTTP status the
handler makes exactly one provider call (no retry) and returns status
500 with an error field and the canned fallback whose expression is sad
and animation Idle. -/
theorem C8_provider_failure_response (rand : ℕ → ℚ)
    (apiKey envModel : Option String) (req : ChatRequest) (eff : ChatEffects)
    (reg : Registry) (hk : falsyStr apiKey = false)
    (hfail : eff.providerOk = false) :
    (chatHandler rand apiKey envModel req eff reg).response.status = 500 ∧
    (chatHandler rand apiKey envModel req eff reg).response.error =
      some ("Error: Groq API error: " ++ toString eff.status) ∧
    (chatHandler rand apiKey envModel req eff reg).response.messages.map
        (fun m => (m.facialExpression, m.animation)) = [("sad", "Idle")] ∧
    (chatHandler rand apiKey envModel req eff reg).providerCalls.length = 1 := by
  refine ⟨?_, ?_, ?_, ?_⟩ <;>
    simp [chatHandler, hk, hfail, errorResponse]

/-- Claim C8 witness: a 503 from the provider yields the 500 fallback
response after a single provider call. -/
theorem C8_witness :
    (chatHandler zeroRand (some "k") none ⟨some "hi", none, none⟩
        ⟨false, 503, [], "m", none⟩ []).response.status = 500 ∧
    (chatHandler zeroRand (some "k") none ⟨some "hi", none, none⟩
        ⟨false, 503, [], "m", none⟩ []).response.error =
      some ("Error: Groq API error: " ++ toString (503 : ℕ)) ∧
    (chatHandler zeroRand (some "k") none ⟨some "hi", none, none⟩
        ⟨false, 503, [], "m", none⟩ []).response.messages.map
        (fun m => (m.facialExpression, m.animation)) = [("sad", "Idle")] ∧
    (chatHandler zeroRand (some "k") none ⟨some "hi", none, none⟩
        ⟨false, 503, [], "m", none⟩ []).providerCalls.length = 1 :=
  C8_provider_failure_response zeroRand (some "k") none ⟨some "hi", none, none⟩
    ⟨false, 503, [], "m", none⟩ [] (by decide) rfl

/-- Claim C9: when the provider call succeeds but its content does not
parse as the expected JSON object, the handler still succeeds, wrapping
the raw content with the default expression and the Talking_1
animation. -/
theorem C9_unparseable_wrapped (rand : ℕ → ℚ) (apiKey envModel : Option String)
    (req : ChatRequest) (eff : ChatEffects) (reg : Registry)
    (hk : falsyStr apiKey = false) (hok : eff.providerOk = true)
    (hparse : eff.parsed = none) :
    (chatHandler rand apiKey envModel req eff reg).response.status = 200 ∧
    (chatHandler rand apiKey envModel req eff reg).response.messages.map
        (fun m => (m.text, m.facialExpression, m.animation)) =
      [(eff.choices.headD "", "default", "Talking_1")] ∧
    (chatHandler rand apiKey envModel req eff reg).response.error = none := by
  refine ⟨?_, ?_, ?_⟩ <;>
    simp [chatHandler, hk, hok, hparse, okResponse]

/-- Claim C9 witness: the plain-text content `"Good job!"` is wrapped
with default expression and `Talking_1`. -/
theorem C9_witness :
    (chatHandler zeroRand (some "k") none ⟨some "hi", none, none⟩
        ⟨true, 200, ["Good job!"], "m", none⟩ []).response.status = 200 ∧
    (chatHandler zeroRand (some "k") none ⟨some "hi", none, none⟩
        ⟨true, 200, ["Good job!"], "m", none⟩ []).response.messages.map
        (fun m => (m.text, m.facialExpression, m.animation)) =
      [("Good job!", "default", "Talking_1")] ∧
    (chatHandler zeroRand (some "k") none ⟨some "hi", none, none⟩
        ⟨true, 200, ["Good job!"], "m", none⟩ []).response.error = none :=
  C9_unparseable_wrapped zeroRand (some "k") none ⟨some "hi", none, none⟩
    ⟨true, 200, ["Good job!"], "m", none⟩ [] (by decide) rfl rfl

/-- Claim C10: with the provider credential absent the handler leaves
the session registry exactly as it was — no transcript is created or
mutated for any session id. -/
theorem C10_no_credential_frame (rand : ℕ → ℚ) (envModel : Option String)
    (req : ChatRequest) (eff : ChatEffects) (reg : Registry) :
    (chatHandler rand none envModel req eff reg).registry = reg := rfl
